import Mathlib

/-!
Shallow embedding of the GLSL texture/image instruction lowering stage
(`src/backend/glsl/emit_glsl_image.cpp`) and proofs about its documented
behaviour.  Statements are modelled as the exact strings the C++ `fmt::format`
calls produce; the emission sink, variable allocator and sparse pseudo-op
consumption are threaded explicitly through a `Ctx` record.
-/

namespace GlslImage

/-- Shader stage tag (`Stage` in the C++ profile headers). -/
inductive Stage where
  | VertexA | VertexB | TessellationControl | TessellationEval
  | Geometry | Fragment | Compute
deriving DecidableEq, Repr

/-- Capability profile; only the flag this file consults is modelled. -/
structure Profile where
  support_gl_texture_shadow_lod : Bool
deriving DecidableEq, Repr

/-- Closed dimensionality enum (`TextureType`). -/
inductive TextureType where
  | Color1D | ColorArray1D | Color2D | ColorArray2D
  | Color3D | ColorCube | ColorArrayCube | Buffer
deriving DecidableEq, Repr

/-- `IR::TextureInstInfo`: the per-instruction flag record. -/
structure TexInfo where
  type : TextureType
  descriptor_index : Nat
  has_bias : Bool
  has_lod_clamp : Bool
  gather_component : Nat
  num_derivates : Nat
deriving DecidableEq, Repr

/-- IR opcodes this file inspects; all other opcodes are `Other`. -/
inductive Opcode where
  | CompositeConstructU32x2
  | CompositeConstructU32x3
  | CompositeConstructU32x4
  | Other (n : Nat)
deriving DecidableEq, Repr

/-- A producing instruction's operand, as seen through `Value::IsImmediate`:
either an immediate 32-bit constant or a non-immediate (dynamic) value,
identified by the id of the instruction that produced it. -/
inductive IrArg where
  | imm (n : Nat)
  | dyn (id : Nat)
deriving DecidableEq, Repr

/-- A producing instruction (`IR::Inst` reached through `Value::InstRecursive`),
with a stable identity used for variable binding. -/
structure ProducerInst where
  id : Nat
  op : Opcode
  args : List IrArg
deriving DecidableEq, Repr

/-- `IR::Value`: empty, an immediate, or a reference to a producer. -/
inductive Value where
  | empty
  | imm (n : Nat)
  | ref (inst : ProducerInst)
deriving DecidableEq, Repr

def Value.IsEmpty : Value → Bool
  | .empty => true
  | _ => false

def Value.IsImmediate : Value → Bool
  | .imm _ => true
  | _ => false

/-- `Value::U32`; only invoked under an `IsImmediate` guard in the source. -/
def Value.U32 : Value → Nat
  | .imm n => n
  | _ => 0

/-- `Value::InstRecursive`; only invoked on references in the source. -/
def Value.InstRecursive : Value → ProducerInst
  | .ref i => i
  | _ => ⟨0, .Other 0, []⟩

/-- `Inst::AreAllArgsImmediates`. -/
def ProducerInst.AreAllArgsImmediates (i : ProducerInst) : Bool :=
  i.args.all fun a => match a with
    | .imm _ => true
    | .dyn _ => false

/-- `Inst::Arg(k).U32()`; only invoked under the all-immediates guard. -/
def ProducerInst.ArgU32 (i : ProducerInst) (k : Nat) : Nat :=
  match i.args.get? k with
  | some (.imm n) => n
  | _ => 0

/-- Semantic type of an allocated variable (`GlslVarType`). -/
inductive GlslVarType where
  | U1 | F32 | U32x4 | F32x4
deriving DecidableEq, Repr

/-- Deterministic variable naming: `VarAlloc` names are a pure function of the
bound instruction's stable identity. -/
def VarName (id : Nat) : String := "v" ++ toString id

/-- The instruction being lowered: identity, flag record, and the id of an
attached `GetSparseFromOp` residency pseudo-instruction when present
(`GetAssociatedPseudoOperation`). -/
structure TexInst where
  id : Nat
  flags : TexInfo
  sparse : Option Nat
deriving DecidableEq, Repr

/-- The `EmitContext` state observable by this file: stage, profile, the four
read-only binding tables, plus the emission sink (`stmts`), the variable
bindings made by `var_alloc.Define`, and the pseudo-instructions invalidated
by `PrepareSparse`. -/
structure Ctx where
  stage : Stage
  profile : Profile
  texture_bindings : List Nat
  texture_buffer_bindings : List Nat
  image_bindings : List Nat
  image_buffer_bindings : List Nat
  stmts : List String
  bindings : List (Nat × GlslVarType)
  invalidated : List Nat
deriving DecidableEq, Repr

/-- Errors: `NotImplementedException` (unsupported feature), `LogicError`
(invariant violation) and `std::out_of_range` from bounds-checked `at`. -/
inductive EmitErr where
  | NotImplemented (msg : String)
  | LogicErr (msg : String)
  | OutOfRange
deriving DecidableEq, Repr

/-- Result of one emitter call: either the updated context, or the error
thrown together with the context at the throw point (C++ exceptions leave
already-appended statements in place). -/
inductive EmitOut where
  | ok (ctx : Ctx)
  | err (e : EmitErr) (ctx : Ctx)
deriving DecidableEq, Repr

/-- Whether an emitter call completed without throwing. -/
def EmitOut.isOk : EmitOut → Bool
  | .ok _ => true
  | .err _ _ => false

/-- The context after an emitter call (at the throw point on error). -/
def EmitOut.outCtx : EmitOut → Ctx
  | .ok c => c
  | .err _ c => c

/-- Bounds-checked `std::vector::at`. -/
def VecAt (l : List Nat) (i : Nat) : Except EmitErr Nat :=
  match l.get? i with
  | some b => .ok b
  | none => .error .OutOfRange

/-- `ctx.Add`: append one statement to the sink. -/
def Ctx.Add (ctx : Ctx) (s : String) : Ctx :=
  { ctx with stmts := ctx.stmts ++ [s] }

/-- `var_alloc.Define(inst, type)`: bind a fresh variable (named `VarName id`)
to the instruction. -/
def Ctx.Define (ctx : Ctx) (id : Nat) (ty : GlslVarType) : Ctx :=
  { ctx with bindings := ctx.bindings ++ [(id, ty)] }

/-- `ctx.AddF32 / AddU1 / AddU32x4 ...` with a leading `{}` bound to `inst`:
define a variable of the given type for the instruction and append the
formatted statement. -/
def Ctx.AddDef (ctx : Ctx) (id : Nat) (ty : GlslVarType) (mk : String → String) : Ctx :=
  (ctx.Define id ty).Add (mk (VarName id))

/-- Shared shape of every sparse-residency statement: the statements of the
sparse template family all format `{}=sparseTexelsResidentARB(<call>)` with the
first placeholder bound to the residency pseudo-instruction via `AddU1`. -/
def Ctx.AddSparse (ctx : Ctx) (p : Nat) (call : String) : Ctx :=
  ctx.AddDef p .U1 (fun pv => pv ++ ("=sparseTexelsResidentARB(" ++ call))

/-- `var_alloc.Consume` on a non-immediate value: the variable previously
bound to its producer. -/
def Ctx.Consume (_ctx : Ctx) (v : Value) : String :=
  VarName v.InstRecursive.id

/-- `Texture(ctx, info, index)` (lines 15-22). -/
def Texture (ctx : Ctx) (info : TexInfo) (_index : Value) : Except EmitErr String :=
  if info.type = .Buffer then
    match VecAt ctx.texture_buffer_bindings info.descriptor_index with
    | .ok b => .ok ("tex" ++ toString b)
    | .error e => .error e
  else
    match VecAt ctx.texture_bindings info.descriptor_index with
    | .ok b => .ok ("tex" ++ toString b)
    | .error e => .error e

/-- `Image(ctx, info, index)` (lines 24-31). -/
def Image (ctx : Ctx) (info : TexInfo) (_index : Value) : Except EmitErr String :=
  if info.type = .Buffer then
    match VecAt ctx.image_buffer_bindings info.descriptor_index with
    | .ok b => .ok ("img" ++ toString b)
    | .error e => .error e
  else
    match VecAt ctx.image_bindings info.descriptor_index with
    | .ok b => .ok ("img" ++ toString b)
    | .error e => .error e

/-- `CastToIntVec` (lines 33-50).  The C++ `default:` branch throws
`NotImplementedException`, but is unreachable for the closed enum. -/
def CastToIntVec (value : String) (info : TexInfo) : String :=
  match info.type with
  | .Color1D | .Buffer => "int(" ++ value ++ ")"
  | .ColorArray1D | .Color2D | .ColorArray2D => "ivec2(" ++ value ++ ")"
  | .Color3D | .ColorCube => "ivec3(" ++ value ++ ")"
  | .ColorArrayCube => "ivec4(" ++ value ++ ")"

/-- `TexelFetchCastToInt` (lines 52-69); same remark about `default:`. -/
def TexelFetchCastToInt (value : String) (info : TexInfo) : String :=
  match info.type with
  | .Color1D | .Buffer => "int(" ++ value ++ ")"
  | .ColorArray1D | .Color2D => "ivec2(" ++ value ++ ")"
  | .ColorArray2D | .Color3D | .ColorCube => "ivec3(" ++ value ++ ")"
  | .ColorArrayCube => "ivec4(" ++ value ++ ")"

/-- `NeedsShadowLodExt` (lines 71-80). -/
def NeedsShadowLodExt (type : TextureType) : Bool :=
  match type with
  | .ColorArray2D | .ColorCube | .ColorArrayCube => true
  | _ => false

/-- `GetOffsetVec` (lines 82-102).  Returns the produced text together with
the list of values consumed from the variable allocator (the C++ side effect
of `var_alloc.Consume`). -/
def GetOffsetVec (ctx : Ctx) (offset : Value) : String × List Nat :=
  if offset.IsImmediate then
    ("int(" ++ toString offset.U32 ++ ")", [])
  else
    let inst := offset.InstRecursive
    if inst.AreAllArgsImmediates then
      match inst.op with
      | .CompositeConstructU32x2 =>
          ("ivec2(" ++ toString (inst.ArgU32 0) ++ "," ++ toString (inst.ArgU32 1) ++ ")", [])
      | .CompositeConstructU32x3 =>
          ("ivec3(" ++ toString (inst.ArgU32 0) ++ "," ++ toString (inst.ArgU32 1) ++ "," ++
            toString (inst.ArgU32 2) ++ ")", [])
      | .CompositeConstructU32x4 =>
          ("ivec4(" ++ toString (inst.ArgU32 0) ++ "," ++ toString (inst.ArgU32 1) ++ "," ++
            toString (inst.ArgU32 2) ++ "," ++ toString (inst.ArgU32 3) ++ ")", [])
      | _ => (ctx.Consume offset, [inst.id])
    else
      (ctx.Consume offset, [inst.id])

/-- Every call site of `GetOffsetVec` is guarded by `offset.IsEmpty()`
(e.g. lines 144, 161, 186, 241, 297): an empty offset never reaches the
folder and contributes no offset text. -/
def FoldOffset (ctx : Ctx) (offset : Value) : Option (String × List Nat) :=
  if offset.IsEmpty then none else some (GetOffsetVec ctx offset)

/-- `PtpOffsets` (lines 104-119).  The argument order of the final format call
is copied exactly from the source: `read(0,0), read(0,1), read(0,2),
read(0,3), read(1,0), read(1,1), read(1,2), read(1,3)`. -/
def PtpOffsets (offset offset2 : Value) : Except EmitErr String :=
  let v0 := offset.InstRecursive
  let v1 := offset2.InstRecursive
  if !v0.AreAllArgsImmediates || !v1.AreAllArgsImmediates then
    .ok "ivec2[](ivec2(0), ivec2(1), ivec2(2), ivec2(3))"
  else
    let opcode := v0.op
    if opcode ≠ v1.op ∨ opcode ≠ Opcode.CompositeConstructU32x4 then
      .error (.LogicErr "Invalid PTP arguments")
    else
      .ok ("ivec2[](ivec2(" ++ toString (v0.ArgU32 0) ++ "," ++ toString (v0.ArgU32 1) ++
        "),ivec2(" ++ toString (v0.ArgU32 2) ++ "," ++ toString (v0.ArgU32 3) ++
        "),ivec2(" ++ toString (v1.ArgU32 0) ++ "," ++ toString (v1.ArgU32 1) ++
        "),ivec2(" ++ toString (v1.ArgU32 2) ++ "," ++ toString (v1.ArgU32 3) ++ "))")

/-- `PrepareSparse` (lines 121-127): look up the associated residency
pseudo-instruction and invalidate it when present. -/
def PrepareSparse (ctx : Ctx) (inst : TexInst) : Ctx × Option Nat :=
  match inst.sparse with
  | some p => ({ ctx with invalidated := ctx.invalidated ++ [p] }, some p)
  | none => (ctx, none)

/-- `EmitImageSampleImplicitLod` (lines 130-168). -/
def EmitImageSampleImplicitLod (ctx : Ctx) (inst : TexInst) (index : Value)
    (coords bias_lc : String) (offset : Value) : EmitOut :=
  let info := inst.flags
  if info.has_lod_clamp then
    .err (.NotImplemented "EmitImageSampleImplicitLod Lod clamp samples") ctx
  else
    match Texture ctx info index with
    | .error e => .err e ctx
    | .ok texture =>
      let bias := if info.has_bias then "," ++ bias_lc else ""
      let texel := VarName inst.id
      let ctx := ctx.Define inst.id .F32x4
      match PrepareSparse ctx inst with
      | (ctx, none) =>
        if !offset.IsEmpty then
          let offset_str := (GetOffsetVec ctx offset).fst
          if ctx.stage = .Fragment then
            .ok (ctx.Add (texel ++ "=textureOffset(" ++ texture ++ "," ++ coords ++ "," ++
              offset_str ++ bias ++ ");"))
          else
            .ok (ctx.Add (texel ++ "=textureLodOffset(" ++ texture ++ "," ++ coords ++ ",0.0," ++
              offset_str ++ ");"))
        else
          if ctx.stage = .Fragment then
            .ok (ctx.Add (texel ++ "=texture(" ++ texture ++ "," ++ coords ++ bias ++ ");"))
          else
            .ok (ctx.Add (texel ++ "=textureLod(" ++ texture ++ "," ++ coords ++ ",0.0);"))
      | (ctx, some sparse_inst) =>
        if !offset.IsEmpty then
          .ok (ctx.AddSparse sparse_inst ("sparseTextureOffsetARB(" ++ texture ++ "," ++ coords ++
            "," ++ (GetOffsetVec ctx offset).fst ++ "," ++ texel ++ bias ++ "));"))
        else
          .ok (ctx.AddSparse sparse_inst ("sparseTextureARB(" ++ texture ++ "," ++ coords ++
            "," ++ texel ++ bias ++ "));"))

/-- `EmitImageSampleExplicitLod` (lines 170-203). -/
def EmitImageSampleExplicitLod (ctx : Ctx) (inst : TexInst) (index : Value)
    (coords lod_lc : String) (offset : Value) : EmitOut :=
  let info := inst.flags
  if info.has_bias then
    .err (.NotImplemented "EmitImageSampleExplicitLod Bias texture samples") ctx
  else if info.has_lod_clamp then
    .err (.NotImplemented "EmitImageSampleExplicitLod Lod clamp samples") ctx
  else
    match Texture ctx info index with
    | .error e => .err e ctx
    | .ok texture =>
      let texel := VarName inst.id
      let ctx := ctx.Define inst.id .F32x4
      match PrepareSparse ctx inst with
      | (ctx, none) =>
        if !offset.IsEmpty then
          .ok (ctx.Add (texel ++ "=textureLodOffset(" ++ texture ++ "," ++ coords ++ "," ++
            lod_lc ++ "," ++ (GetOffsetVec ctx offset).fst ++ ");"))
        else
          .ok (ctx.Add (texel ++ "=textureLod(" ++ texture ++ "," ++ coords ++ "," ++ lod_lc ++
            ");"))
      | (ctx, some sparse_inst) =>
        if !offset.IsEmpty then
          .ok (ctx.AddSparse sparse_inst ("sparseTexelFetchOffsetARB(" ++ texture ++ "," ++
            CastToIntVec coords info ++ ",int(" ++ lod_lc ++ ")," ++
            (GetOffsetVec ctx offset).fst ++ "," ++ texel ++ "));"))
        else
          .ok (ctx.AddSparse sparse_inst ("sparseTextureLodARB(" ++ texture ++ "," ++ coords ++
            "," ++ lod_lc ++ "," ++ texel ++ "));"))

/-- `EmitImageSampleDrefImplicitLod` (lines 205-261). -/
def EmitImageSampleDrefImplicitLod (ctx : Ctx) (inst : TexInst) (index : Value)
    (coords dref bias_lc : String) (offset : Value) : EmitOut :=
  let info := inst.flags
  match PrepareSparse ctx inst with
  | (ctx, some _) =>
    .err (.NotImplemented "EmitImageSampleDrefImplicitLod Sparse texture samples") ctx
  | (ctx, none) =>
    if info.has_bias then
      .err (.NotImplemented "EmitImageSampleDrefImplicitLod Bias texture samples") ctx
    else if info.has_lod_clamp then
      .err (.NotImplemented "EmitImageSampleDrefImplicitLod Lod clamp samples") ctx
    else
      match Texture ctx info index with
      | .error e => .err e ctx
      | .ok texture =>
        let bias := if info.has_bias then "," ++ bias_lc else ""
        let needs_shadow_ext := NeedsShadowLodExt info.type
        let cast := if needs_shadow_ext then "vec4" else "vec3"
        if ctx.profile.support_gl_texture_shadow_lod = false ∧ ctx.stage ≠ .Fragment ∧
            needs_shadow_ext = true then
          if info.type = .ColorArrayCube then
            .ok (ctx.AddDef inst.id .F32 (fun v => v ++ "=0.0f;"))
          else
            let d_cast := if info.type = .ColorArray2D then "vec2" else "vec3"
            .ok (ctx.AddDef inst.id .F32 (fun v => v ++ "=textureGrad(" ++ texture ++ "," ++
              cast ++ "(" ++ coords ++ "," ++ dref ++ ")," ++ d_cast ++ "(0)," ++ d_cast ++
              "(0));"))
        else if !offset.IsEmpty then
          let offset_str := (GetOffsetVec ctx offset).fst
          if ctx.stage = .Fragment then
            .ok (ctx.AddDef inst.id .F32 (fun v => v ++ "=textureOffset(" ++ texture ++ "," ++
              cast ++ "(" ++ coords ++ "," ++ dref ++ ")," ++ offset_str ++ bias ++ ");"))
          else
            .ok (ctx.AddDef inst.id .F32 (fun v => v ++ "=textureLodOffset(" ++ texture ++ "," ++
              cast ++ "(" ++ coords ++ "," ++ dref ++ "),0.0," ++ offset_str ++ ");"))
        else
          if ctx.stage = .Fragment then
            if info.type = .ColorArrayCube then
              .ok (ctx.AddDef inst.id .F32 (fun v => v ++ "=texture(" ++ texture ++ ",vec4(" ++
                coords ++ ")," ++ dref ++ ");"))
            else
              .ok (ctx.AddDef inst.id .F32 (fun v => v ++ "=texture(" ++ texture ++ "," ++ cast ++
                "(" ++ coords ++ "," ++ dref ++ ")" ++ bias ++ ");"))
          else
            .ok (ctx.AddDef inst.id .F32 (fun v => v ++ "=textureLod(" ++ texture ++ "," ++ cast ++
              "(" ++ coords ++ "," ++ dref ++ "),0.0);"))

/-- `EmitImageSampleDrefExplicitLod` (lines 263-314). -/
def EmitImageSampleDrefExplicitLod (ctx : Ctx) (inst : TexInst) (index : Value)
    (coords dref lod_lc : String) (offset : Value) : EmitOut :=
  let info := inst.flags
  match PrepareSparse ctx inst with
  | (ctx, some _) =>
    .err (.NotImplemented "EmitImageSampleDrefExplicitLod Sparse texture samples") ctx
  | (ctx, none) =>
    if info.has_bias then
      .err (.NotImplemented "EmitImageSampleDrefExplicitLod Bias texture samples") ctx
    else if info.has_lod_clamp then
      .err (.NotImplemented "EmitImageSampleDrefExplicitLod Lod clamp samples") ctx
    else
      match Texture ctx info index with
      | .error e => .err e ctx
      | .ok texture =>
        let needs_shadow_ext := NeedsShadowLodExt info.type
        let cast := if needs_shadow_ext then "vec4" else "vec3"
        if ctx.profile.support_gl_texture_shadow_lod = false ∧ needs_shadow_ext = true then
          if info.type = .ColorArrayCube then
            .ok (ctx.AddDef inst.id .F32 (fun v => v ++ "=0.0f;"))
          else
            let d_cast := if info.type = .ColorArray2D then "vec2" else "vec3"
            .ok (ctx.AddDef inst.id .F32 (fun v => v ++ "=textureGrad(" ++ texture ++ "," ++
              cast ++ "(" ++ coords ++ "," ++ dref ++ ")," ++ d_cast ++ "(0)," ++ d_cast ++
              "(0));"))
        else if !offset.IsEmpty then
          let offset_str := (GetOffsetVec ctx offset).fst
          if info.type = .ColorArrayCube then
            .ok (ctx.AddDef inst.id .F32 (fun v => v ++ "=textureLodOffset(" ++ texture ++ "," ++
              coords ++ "," ++ dref ++ "," ++ lod_lc ++ "," ++ offset_str ++ ");"))
          else
            .ok (ctx.AddDef inst.id .F32 (fun v => v ++ "=textureLodOffset(" ++ texture ++ "," ++
              cast ++ "(" ++ coords ++ "," ++ dref ++ ")," ++ lod_lc ++ "," ++ offset_str ++
              ");"))
        else
          if info.type = .ColorArrayCube then
            .ok (ctx.AddDef inst.id .F32 (fun v => v ++ "=textureLod(" ++ texture ++ "," ++
              coords ++ "," ++ dref ++ "," ++ lod_lc ++ ");"))
          else
            .ok (ctx.AddDef inst.id .F32 (fun v => v ++ "=textureLod(" ++ texture ++ "," ++
              cast ++ "(" ++ coords ++ "," ++ dref ++ ")," ++ lod_lc ++ ");"))

/-- `EmitImageGather` (lines 316-359). -/
def EmitImageGather (ctx : Ctx) (inst : TexInst) (index : Value)
    (coords : String) (offset offset2 : Value) : EmitOut :=
  let info := inst.flags
  match Texture ctx info index with
  | .error e => .err e ctx
  | .ok texture =>
    let texel := VarName inst.id
    let ctx := ctx.Define inst.id .F32x4
    match PrepareSparse ctx inst with
    | (ctx, none) =>
      if offset.IsEmpty then
        .ok (ctx.Add (texel ++ "=textureGather(" ++ texture ++ "," ++ coords ++ ",int(" ++
          toString info.gather_component ++ "));"))
      else if offset2.IsEmpty then
        .ok (ctx.Add (texel ++ "=textureGatherOffset(" ++ texture ++ "," ++ coords ++ "," ++
          (GetOffsetVec ctx offset).fst ++ ",int(" ++ toString info.gather_component ++ "));"))
      else
        match PtpOffsets offset offset2 with
        | .error e => .err e ctx
        | .ok offsets =>
          .ok (ctx.Add (texel ++ "=textureGatherOffsets(" ++ texture ++ "," ++ coords ++ "," ++
            offsets ++ ",int(" ++ toString info.gather_component ++ "));"))
    | (ctx, some sparse_inst) =>
      if offset.IsEmpty then
        .ok (ctx.AddSparse sparse_inst ("sparseTextureGatherARB(" ++ texture ++ "," ++ coords ++
          "," ++ texel ++ ",int(" ++ toString info.gather_component ++ ")));"))
      else if offset2.IsEmpty then
        .ok (ctx.AddSparse sparse_inst ("sparseTextureGatherOffsetARB(" ++ texture ++ "," ++
          CastToIntVec coords info ++ "," ++ (GetOffsetVec ctx offset).fst ++ "," ++ texel ++
          ",int(" ++ toString info.gather_component ++ ")));"))
      else
        match PtpOffsets offset offset2 with
        | .error e => .err e ctx
        | .ok offsets =>
          .ok (ctx.AddSparse sparse_inst ("sparseTextureGatherOffsetARB(" ++ texture ++ "," ++
            CastToIntVec coords info ++ "," ++ offsets ++ "," ++ texel ++ ",int(" ++
            toString info.gather_component ++ ")));"))

/-- `EmitImageGatherDref` (lines 361-402).  The double comma in the sparse
offset templates is in the source. -/
def EmitImageGatherDref (ctx : Ctx) (inst : TexInst) (index : Value)
    (coords : String) (offset offset2 : Value) (dref : String) : EmitOut :=
  let info := inst.flags
  match Texture ctx info index with
  | .error e => .err e ctx
  | .ok texture =>
    let texel := VarName inst.id
    let ctx := ctx.Define inst.id .F32x4
    match PrepareSparse ctx inst with
    | (ctx, none) =>
      if offset.IsEmpty then
        .ok (ctx.Add (texel ++ "=textureGather(" ++ texture ++ "," ++ coords ++ "," ++ dref ++
          ");"))
      else if offset2.IsEmpty then
        .ok (ctx.Add (texel ++ "=textureGatherOffset(" ++ texture ++ "," ++ coords ++ "," ++
          dref ++ "," ++ (GetOffsetVec ctx offset).fst ++ ");"))
      else
        match PtpOffsets offset offset2 with
        | .error e => .err e ctx
        | .ok offsets =>
          .ok (ctx.Add (texel ++ "=textureGatherOffsets(" ++ texture ++ "," ++ coords ++ "," ++
            dref ++ "," ++ offsets ++ ");"))
    | (ctx, some sparse_inst) =>
      if offset.IsEmpty then
        .ok (ctx.AddSparse sparse_inst ("sparseTextureGatherARB(" ++ texture ++ "," ++ coords ++
          "," ++ dref ++ "," ++ texel ++ "));"))
      else if offset2.IsEmpty then
        .ok (ctx.AddSparse sparse_inst ("sparseTextureGatherOffsetARB(" ++ texture ++ "," ++
          CastToIntVec coords info ++ "," ++ dref ++ ",," ++ (GetOffsetVec ctx offset).fst ++
          "," ++ texel ++ "));"))
      else
        match PtpOffsets offset offset2 with
        | .error e => .err e ctx
        | .ok offsets =>
          .ok (ctx.AddSparse sparse_inst ("sparseTextureGatherOffsetARB(" ++ texture ++ "," ++
            CastToIntVec coords info ++ "," ++ dref ++ ",," ++ offsets ++ "," ++ texel ++ "));"))

/-- `EmitImageFetch` (lines 404-442); here `offset` is a `string_view`. -/
def EmitImageFetch (ctx : Ctx) (inst : TexInst) (index : Value)
    (coords offset lod _ms : String) : EmitOut :=
  let info := inst.flags
  if info.has_bias then
    .err (.NotImplemented "EmitImageFetch Bias texture samples") ctx
  else if info.has_lod_clamp then
    .err (.NotImplemented "EmitImageFetch Lod clamp samples") ctx
  else
    match Texture ctx info index with
    | .error e => .err e ctx
    | .ok texture =>
      match PrepareSparse ctx inst with
      | (ctx, none) =>
        let texel := VarName inst.id
        let ctx := ctx.Define inst.id .F32x4
        if !offset.isEmpty then
          .ok (ctx.Add (texel ++ "=texelFetchOffset(" ++ texture ++ "," ++
            TexelFetchCastToInt coords info ++ ",int(" ++ lod ++ ")," ++
            TexelFetchCastToInt offset info ++ ");"))
        else
          if info.type = .Buffer then
            .ok (ctx.Add (texel ++ "=texelFetch(" ++ texture ++ ",int(" ++ coords ++ "));"))
          else
            .ok (ctx.Add (texel ++ "=texelFetch(" ++ texture ++ "," ++
              TexelFetchCastToInt coords info ++ ",int(" ++ lod ++ "));"))
      | (ctx, some sparse_inst) =>
        let texel := VarName inst.id
        let ctx := ctx.Define inst.id .F32x4
        if !offset.isEmpty then
          .ok (ctx.AddSparse sparse_inst ("sparseTexelFetchOffsetARB(" ++ texture ++ "," ++
            CastToIntVec coords info ++ ",int(" ++ lod ++ ")," ++ CastToIntVec offset info ++
            "," ++ texel ++ "));"))
        else
          .ok (ctx.AddSparse sparse_inst ("sparseTexelFetchARB(" ++ texture ++ "," ++
            CastToIntVec coords info ++ ",int(" ++ lod ++ ")," ++ texel ++ "));"))

/-- `EmitImageQueryDimensions` (lines 444-470).  The trailing
`LogicError("Unspecified image type")` is unreachable for the closed enum. -/
def EmitImageQueryDimensions (ctx : Ctx) (inst : TexInst) (index : Value)
    (lod : String) : EmitOut :=
  let info := inst.flags
  match Texture ctx info index with
  | .error e => .err e ctx
  | .ok texture =>
    match info.type with
    | .Color1D =>
      .ok (ctx.AddDef inst.id .U32x4 (fun v => v ++ "=uvec4(uint(textureSize(" ++ texture ++
        ",int(" ++ lod ++ "))),0u,0u,uint(textureQueryLevels(" ++ texture ++ ")));"))
    | .ColorArray1D | .Color2D | .ColorCube =>
      .ok (ctx.AddDef inst.id .U32x4 (fun v => v ++ "=uvec4(uvec2(textureSize(" ++ texture ++
        ",int(" ++ lod ++ "))),0u,uint(textureQueryLevels(" ++ texture ++ ")));"))
    | .ColorArray2D | .Color3D | .ColorArrayCube =>
      .ok (ctx.AddDef inst.id .U32x4 (fun v => v ++ "=uvec4(uvec3(textureSize(" ++ texture ++
        ",int(" ++ lod ++ "))),uint(textureQueryLevels(" ++ texture ++ ")));"))
    | .Buffer =>
      .err (.NotImplemented "EmitImageQueryDimensions Texture buffers") ctx

/-- `EmitImageGradient` (lines 480-508). -/
def EmitImageGradient (ctx : Ctx) (inst : TexInst) (index : Value) (coords : String)
    (derivatives offset _lod_clamp : Value) : EmitOut :=
  let info := inst.flags
  if info.has_lod_clamp then
    .err (.NotImplemented "EmitImageGradient Lod clamp samples") ctx
  else
    match PrepareSparse ctx inst with
    | (ctx, some _) => .err (.NotImplemented "EmitImageGradient Sparse") ctx
    | (ctx, none) =>
      if !offset.IsEmpty then
        .err (.NotImplemented "EmitImageGradient offset") ctx
      else
        match Texture ctx info index with
        | .error e => .err e ctx
        | .ok texture =>
          let texel := VarName inst.id
          let ctx := ctx.Define inst.id .F32x4
          let multi_component := decide (info.num_derivates > 1) || info.has_lod_clamp
          let derivatives_vec := ctx.Consume derivatives
          if multi_component then
            .ok (ctx.Add (texel ++ "=textureGrad(" ++ texture ++ "," ++ coords ++ ",vec2(" ++
              derivatives_vec ++ ".xz),vec2(" ++ derivatives_vec ++ ".yz));"))
          else
            .ok (ctx.Add (texel ++ "=textureGrad(" ++ texture ++ "," ++ coords ++ ",float(" ++
              derivatives_vec ++ ".x),float(" ++ derivatives_vec ++ ".y));"))

/-- One argument record covering the parameter surface of every texture
emitter, so that a single dispatch function can range over the operations. -/
structure TexArgs where
  index : Value
  coords : String
  bias_lc : String
  lod_lc : String
  dref : String
  offset : Value
  offset2 : Value
  offset_sv : String
  lod : String
  ms : String
  derivatives : Value
  lod_clamp : Value
deriving DecidableEq, Repr

/-- The sampling / fetch / gather opcodes lowered by this file. -/
inductive TexOp where
  | SampleImplicitLod | SampleExplicitLod
  | SampleDrefImplicitLod | SampleDrefExplicitLod
  | Gather | GatherDref | Fetch | Gradient
deriving DecidableEq, Repr

/-- Dispatch: one entry point per opcode, fed from a shared argument record. -/
def EmitTexOp (ctx : Ctx) (op : TexOp) (inst : TexInst) (a : TexArgs) : EmitOut :=
  match op with
  | .SampleImplicitLod =>
    EmitImageSampleImplicitLod ctx inst a.index a.coords a.bias_lc a.offset
  | .SampleExplicitLod =>
    EmitImageSampleExplicitLod ctx inst a.index a.coords a.lod_lc a.offset
  | .SampleDrefImplicitLod =>
    EmitImageSampleDrefImplicitLod ctx inst a.index a.coords a.dref a.bias_lc a.offset
  | .SampleDrefExplicitLod =>
    EmitImageSampleDrefExplicitLod ctx inst a.index a.coords a.dref a.lod_lc a.offset
  | .Gather => EmitImageGather ctx inst a.index a.coords a.offset a.offset2
  | .GatherDref => EmitImageGatherDref ctx inst a.index a.coords a.offset a.offset2 a.dref
  | .Fetch => EmitImageFetch ctx inst a.index a.coords a.offset_sv a.lod a.ms
  | .Gradient => EmitImageGradient ctx inst a.index a.coords a.derivatives a.offset a.lod_clamp

/-- A concrete lowering context used by witnesses: Compute stage, no
shadow-LOD extension, one registered slot in each binding table. -/
def ctx0 : Ctx :=
  { stage := .Compute
    profile := ⟨false⟩
    texture_bindings := [5]
    texture_buffer_bindings := [6]
    image_bindings := [7]
    image_buffer_bindings := [8]
    stmts := []
    bindings := []
    invalidated := [] }

/-- C1: for two all-immediate `CompositeConstructU32x4` producers with
components a0..a3 and b0..b3, the PTP encoder is claimed to emit the four
pairs (a_i, b_i); the code instead feeds the format arguments in the order
a0,a1,a2,a3,b0,b1,b2,b3, producing the pairs (a0,a1),(a2,a3),(b0,b1),(b2,b3).
This theorem evaluates the encoder at the failing input a=(0,1,2,3),
b=(4,5,6,7) and records that the output differs from the claimed pairing. -/
theorem ptp_pairing_bug :
    PtpOffsets
      (Value.ref ⟨10, .CompositeConstructU32x4, [.imm 0, .imm 1, .imm 2, .imm 3]⟩)
      (Value.ref ⟨11, .CompositeConstructU32x4, [.imm 4, .imm 5, .imm 6, .imm 7]⟩) =
      Except.ok "ivec2[](ivec2(0,1),ivec2(2,3),ivec2(4,5),ivec2(6,7))" ∧
    "ivec2[](ivec2(0,1),ivec2(2,3),ivec2(4,5),ivec2(6,7))" ≠
      "ivec2[](ivec2(0,4),ivec2(1,5),ivec2(2,6),ivec2(3,7))" := by
  exact ⟨rfl, by decide⟩

/-- C2 counterexample: two producers with mismatched opcodes
(`CompositeConstructU32x2` vs `CompositeConstructU32x4`) in which a component
is non-immediate do NOT raise the invariant violation the claim demands: the
all-immediates check runs first, so the encoder returns the fixed placeholder
and lowering continues. -/
theorem ptp_mismatch_nonimmediate_cex :
    PtpOffsets
      (Value.ref ⟨12, .CompositeConstructU32x2, [.dyn 1, .imm 1]⟩)
      (Value.ref ⟨13, .CompositeConstructU32x4, [.imm 4, .imm 5, .imm 6, .imm 7]⟩) =
      Except.ok "ivec2[](ivec2(0), ivec2(1), ivec2(2), ivec2(3))" := rfl

/-- C2 (amended): any non-immediate component yields the fixed placeholder
array (independent of the operand values and of opcode agreement) and
lowering continues; when both producers are all-immediate, mismatched opcodes
raise a `LogicErr` invariant violation, which is distinct from the
`NotImplemented` unsupported-feature error. -/
theorem ptp_error_handling (offset offset2 : Value) :
    ((offset.InstRecursive.AreAllArgsImmediates = false ∨
      offset2.InstRecursive.AreAllArgsImmediates = false) →
      PtpOffsets offset offset2 =
        Except.ok "ivec2[](ivec2(0), ivec2(1), ivec2(2), ivec2(3))") ∧
    (offset.InstRecursive.AreAllArgsImmediates = true →
      offset2.InstRecursive.AreAllArgsImmediates = true →
      offset.InstRecursive.op ≠ offset2.InstRecursive.op →
      PtpOffsets offset offset2 =
        Except.error (EmitErr.LogicErr "Invalid PTP arguments")) := by
  constructor
  · intro h
    unfold PtpOffsets
    rcases h with h | h <;> simp [h]
  · intro h1 h2 hne
    have hor : offset.InstRecursive.op ≠ offset2.InstRecursive.op ∨
        offset.InstRecursive.op ≠ Opcode.CompositeConstructU32x4 := Or.inl hne
    simp [PtpOffsets, h1, h2, hor]

/-- Witness for `ptp_error_handling` at concrete inputs: a partially
non-immediate pair (stub emitted) and an all-immediate mismatched pair
(invariant violation raised). -/
theorem ptp_error_handling_witness :
    PtpOffsets
      (Value.ref ⟨14, .CompositeConstructU32x4, [.dyn 0, .imm 1, .imm 2, .imm 3]⟩)
      (Value.ref ⟨15, .CompositeConstructU32x4, [.imm 4, .imm 5, .imm 6, .imm 7]⟩) =
      Except.ok "ivec2[](ivec2(0), ivec2(1), ivec2(2), ivec2(3))" ∧
    PtpOffsets
      (Value.ref ⟨16, .CompositeConstructU32x2, [.imm 0, .imm 1]⟩)
      (Value.ref ⟨17, .CompositeConstructU32x4, [.imm 4, .imm 5, .imm 6, .imm 7]⟩) =
      Except.error (EmitErr.LogicErr "Invalid PTP arguments") :=
  ⟨(ptp_error_handling _ _).1 (Or.inl (by decide)),
   (ptp_error_handling _ _).2 (by decide) (by decide) (by decide)⟩

/-- C5: the claim (and the parallel helper `TexelFetchCastToInt`) give
`ColorArray2D` a 3-wide cast, but `CastToIntVec` places `ColorArray2D` in its
2-wide group: at the failing input `ColorArray2D` the coordinate cast is
`ivec2(c)` while the claimed (and sibling-helper) width is `ivec3(c)`. -/
theorem cast_to_int_vec_array2d_bug :
    CastToIntVec "c" ⟨.ColorArray2D, 0, false, false, 0, 0⟩ = "ivec2(c)" ∧
    TexelFetchCastToInt "c" ⟨.ColorArray2D, 0, false, false, 0, 0⟩ = "ivec3(c)" ∧
    "ivec2(c)" ≠ "ivec3(c)" := by
  exact ⟨by decide, by decide, by decide⟩

/-- C6: the offset Folder emits: nothing for an empty offset; `int(<value>)`
for an immediate scalar; the literal `ivec2/3/4(...)` constructor text for a
Reference to an all-immediate `CompositeConstructU32x2/3/4`, consuming no
variable; and the previously bound variable name (consuming the Reference)
otherwise. -/
theorem offset_folder_spec (ctx : Ctx) :
    (FoldOffset ctx .empty = none) ∧
    (∀ n : Nat, GetOffsetVec ctx (.imm n) = ("int(" ++ toString n ++ ")", [])) ∧
    (∀ i : ProducerInst, i.AreAllArgsImmediates = true →
      (i.op = .CompositeConstructU32x2 →
        GetOffsetVec ctx (.ref i) =
          ("ivec2(" ++ toString (i.ArgU32 0) ++ "," ++ toString (i.ArgU32 1) ++ ")", [])) ∧
      (i.op = .CompositeConstructU32x3 →
        GetOffsetVec ctx (.ref i) =
          ("ivec3(" ++ toString (i.ArgU32 0) ++ "," ++ toString (i.ArgU32 1) ++ "," ++
            toString (i.ArgU32 2) ++ ")", [])) ∧
      (i.op = .CompositeConstructU32x4 →
        GetOffsetVec ctx (.ref i) =
          ("ivec4(" ++ toString (i.ArgU32 0) ++ "," ++ toString (i.ArgU32 1) ++ "," ++
            toString (i.ArgU32 2) ++ "," ++ toString (i.ArgU32 3) ++ ")", []))) ∧
    (∀ i : ProducerInst,
      (i.AreAllArgsImmediates = false ∨
        (i.op ≠ .CompositeConstructU32x2 ∧ i.op ≠ .CompositeConstructU32x3 ∧
          i.op ≠ .CompositeConstructU32x4)) →
      GetOffsetVec ctx (.ref i) = (VarName i.id, [i.id])) := by
  refine ⟨rfl, fun n => rfl, fun i h => ⟨?_, ?_, ?_⟩, fun i h => ?_⟩
  · intro hop
    simp [GetOffsetVec, Value.IsImmediate, Value.InstRecursive, h, hop]
  · intro hop
    simp [GetOffsetVec, Value.IsImmediate, Value.InstRecursive, h, hop]
  · intro hop
    simp [GetOffsetVec, Value.IsImmediate, Value.InstRecursive, h, hop]
  · rcases h with h | ⟨h2, h3, h4⟩
    · simp [GetOffsetVec, Value.IsImmediate, Value.InstRecursive, Ctx.Consume, h]
    · cases hop : i.op with
      | CompositeConstructU32x2 => exact absurd hop h2
      | CompositeConstructU32x3 => exact absurd hop h3
      | CompositeConstructU32x4 => exact absurd hop h4
      | Other n =>
        by_cases hall : i.AreAllArgsImmediates <;>
          simp [GetOffsetVec, Value.IsImmediate, Value.InstRecursive, Ctx.Consume, hall, hop]

/-- Witness for `offset_folder_spec`: the immediate-scalar, immediate-vector
and dynamic cases at concrete inputs. -/
theorem offset_folder_spec_witness :
    GetOffsetVec ctx0 (.imm 5) = ("int(" ++ toString 5 ++ ")", []) ∧
    GetOffsetVec ctx0 (.ref ⟨20, .CompositeConstructU32x2, [.imm 8, .imm 9]⟩) =
      ("ivec2(" ++ toString 8 ++ "," ++ toString 9 ++ ")", []) ∧
    GetOffsetVec ctx0 (.ref ⟨21, .Other 3, [.imm 8]⟩) = (VarName 21, [21]) := by
  refine ⟨(offset_folder_spec ctx0).2.1 5, ?_, ?_⟩
  · have h := ((offset_folder_spec ctx0).2.2.1
      ⟨20, .CompositeConstructU32x2, [.imm 8, .imm 9]⟩ (by decide)).1 rfl
    simpa using h
  · exact (offset_folder_spec ctx0).2.2.2 ⟨21, .Other 3, [.imm 8]⟩ (Or.inr (by decide))

/-- C9: for each of the four binding tables, a registered descriptor index
yields the textual binding identifier (`tex<slot>` / `img<slot>`) and an
unregistered index fails with the deterministic out-of-range error — never a
default slot.  The lookups are pure: they return no updated context. -/
theorem binding_lookup (ctx : Ctx) (info : TexInfo) (index : Value) :
    (∀ b, info.type = .Buffer →
      ctx.texture_buffer_bindings.get? info.descriptor_index = some b →
      Texture ctx info index = Except.ok ("tex" ++ toString b)) ∧
    (∀ b, info.type ≠ .Buffer →
      ctx.texture_bindings.get? info.descriptor_index = some b →
      Texture ctx info index = Except.ok ("tex" ++ toString b)) ∧
    (info.type = .Buffer →
      ctx.texture_buffer_bindings.get? info.descriptor_index = none →
      Texture ctx info index = Except.error .OutOfRange) ∧
    (info.type ≠ .Buffer →
      ctx.texture_bindings.get? info.descriptor_index = none →
      Texture ctx info index = Except.error .OutOfRange) ∧
    (∀ b, info.type = .Buffer →
      ctx.image_buffer_bindings.get? info.descriptor_index = some b →
      Image ctx info index = Except.ok ("img" ++ toString b)) ∧
    (∀ b, info.type ≠ .Buffer →
      ctx.image_bindings.get? info.descriptor_index = some b →
      Image ctx info index = Except.ok ("img" ++ toString b)) ∧
    (info.type = .Buffer →
      ctx.image_buffer_bindings.get? info.descriptor_index = none →
      Image ctx info index = Except.error .OutOfRange) ∧
    (info.type ≠ .Buffer →
      ctx.image_bindings.get? info.descriptor_index = none →
      Image ctx info index = Except.error .OutOfRange) := by
  refine ⟨fun b ht hl => ?_, fun b ht hl => ?_, fun ht hl => ?_, fun ht hl => ?_,
    fun b ht hl => ?_, fun b ht hl => ?_, fun ht hl => ?_, fun ht hl => ?_⟩ <;>
    (simp only [List.get?_eq_getElem?] at hl; simp [Texture, Image, VecAt, ht, hl])

/-- Witness for `binding_lookup`: a registered sampled-texture lookup and an
unregistered storage-image-buffer lookup in the concrete context. -/
theorem binding_lookup_witness :
    Texture ctx0 ⟨.Color2D, 0, false, false, 0, 0⟩ (.imm 0) =
      Except.ok ("tex" ++ toString 5) ∧
    Image ctx0 ⟨.Buffer, 3, false, false, 0, 0⟩ (.imm 0) =
      Except.error .OutOfRange :=
  ⟨(binding_lookup ctx0 ⟨.Color2D, 0, false, false, 0, 0⟩ (.imm 0)).2.1 5 (by decide) rfl,
   (binding_lookup ctx0 ⟨.Buffer, 3, false, false, 0, 0⟩ (.imm 0)).2.2.2.2.2.2.1 rfl rfl⟩

/-- C8: the explicit-LOD sample emitter rejects the bias modifier, and
likewise the LOD-clamp modifier, with an unsupported-feature error raised
before anything is appended to the sink: the context returned with the error
is the unmodified input context, so no partial output exists. -/
theorem explicit_lod_rejects_bias_clamp (ctx : Ctx) (inst : TexInst) (index : Value)
    (coords lod_lc : String) (offset : Value)
    (h : inst.flags.has_bias = true ∨ inst.flags.has_lod_clamp = true) :
    ∃ msg, EmitImageSampleExplicitLod ctx inst index coords lod_lc offset =
      .err (.NotImplemented msg) ctx := by
  unfold EmitImageSampleExplicitLod
  rcases h with h | h
  · exact ⟨"EmitImageSampleExplicitLod Bias texture samples", by simp [h]⟩
  · by_cases hb : inst.flags.has_bias = true
    · exact ⟨"EmitImageSampleExplicitLod Bias texture samples", by simp [hb]⟩
    · exact ⟨"EmitImageSampleExplicitLod Lod clamp samples", by simp [hb, h]⟩

/-- Witness for `explicit_lod_rejects_bias_clamp`: a bias-flagged explicit-LOD
sample in the concrete context is rejected with the sink untouched. -/
theorem explicit_lod_rejects_bias_clamp_witness :
    ∃ msg, EmitImageSampleExplicitLod ctx0 ⟨30, ⟨.Color2D, 0, true, false, 0, 0⟩, none⟩
      (.imm 0) "c" "l" .empty = .err (.NotImplemented msg) ctx0 :=
  explicit_lod_rejects_bias_clamp ctx0 ⟨30, ⟨.Color2D, 0, true, false, 0, 0⟩, none⟩
    (.imm 0) "c" "l" .empty (Or.inl rfl)

/-- C10: a non-sparse implicit-LOD color sample lowered outside the fragment
stage uses the explicit-LOD template with level `0.0` (`textureLod` /
`textureLodOffset`), and the statement is independent of the bias operand. -/
theorem implicit_lod_nonfragment (ctx : Ctx) (inst : TexInst) (index : Value)
    (coords bias_lc : String) (offset : Value) (tex : String)
    (hstage : ctx.stage ≠ .Fragment)
    (hlc : inst.flags.has_lod_clamp = false)
    (hsp : inst.sparse = none)
    (htex : Texture ctx inst.flags index = Except.ok tex) :
    (offset.IsEmpty = true →
      (EmitImageSampleImplicitLod ctx inst index coords bias_lc offset).isOk = true ∧
      (EmitImageSampleImplicitLod ctx inst index coords bias_lc offset).outCtx.stmts =
        ctx.stmts ++
          [VarName inst.id ++ "=textureLod(" ++ tex ++ "," ++ coords ++ ",0.0);"]) ∧
    (offset.IsEmpty = false →
      (EmitImageSampleImplicitLod ctx inst index coords bias_lc offset).isOk = true ∧
      (EmitImageSampleImplicitLod ctx inst index coords bias_lc offset).outCtx.stmts =
        ctx.stmts ++
          [VarName inst.id ++ "=textureLodOffset(" ++ tex ++ "," ++ coords ++ ",0.0," ++
            (GetOffsetVec ctx offset).fst ++ ");"]) ∧
    (∀ bias2 : String,
      EmitImageSampleImplicitLod ctx inst index coords bias_lc offset =
        EmitImageSampleImplicitLod ctx inst index coords bias2 offset) := by
  refine ⟨fun he => ?_, fun he => ?_, fun bias2 => ?_⟩
  · constructor <;>
      simp [EmitImageSampleImplicitLod, hlc, htex, PrepareSparse, hsp, he,
        Ctx.Define, Ctx.Add, hstage, EmitOut.isOk, EmitOut.outCtx]
  · constructor <;>
      simp [EmitImageSampleImplicitLod, hlc, htex, PrepareSparse, hsp, he,
        Ctx.Define, Ctx.Add, hstage, GetOffsetVec, Ctx.Consume, EmitOut.isOk, EmitOut.outCtx]
  · simp [EmitImageSampleImplicitLod, hlc, htex, PrepareSparse, hsp,
      Ctx.Define, Ctx.Add, hstage]

/-- Witness for `implicit_lod_nonfragment`: a bias-flagged implicit sample in
the compute-stage context emits `textureLod(...,0.0)` and the output does not
change when the bias operand text changes. -/
theorem implicit_lod_nonfragment_witness :
    ((EmitImageSampleImplicitLod ctx0 ⟨40, ⟨.Color2D, 0, true, false, 0, 0⟩, none⟩
      (.imm 0) "c" "b" .empty).isOk = true ∧
      (EmitImageSampleImplicitLod ctx0 ⟨40, ⟨.Color2D, 0, true, false, 0, 0⟩, none⟩
        (.imm 0) "c" "b" .empty).outCtx.stmts = ctx0.stmts ++
        [VarName 40 ++ "=textureLod(" ++ ("tex" ++ toString 5) ++ "," ++ "c" ++ ",0.0);"]) ∧
    EmitImageSampleImplicitLod ctx0 ⟨40, ⟨.Color2D, 0, true, false, 0, 0⟩, none⟩
      (.imm 0) "c" "b" .empty =
    EmitImageSampleImplicitLod ctx0 ⟨40, ⟨.Color2D, 0, true, false, 0, 0⟩, none⟩
      (.imm 0) "c" "other" .empty := by
  have h := implicit_lod_nonfragment ctx0 ⟨40, ⟨.Color2D, 0, true, false, 0, 0⟩, none⟩
    (.imm 0) "c" "b" .empty ("tex" ++ toString 5) (by decide) rfl rfl rfl
  exact ⟨h.1 rfl, h.2.2 "other"⟩

/-- C3: for a depth-compare explicit-LOD sample without the shadow-LOD
extension (and with no sparse pseudo-op, bias or LOD clamp, which would be
rejected first): dimensionality `Cube` substitutes a `textureGrad` call with
zero derivatives, while `ArrayCube` emits no gradient call and instead binds
the instruction to the constant-zero scalar statement `<var>=0.0f;`. -/
theorem dref_explicit_fallback (ctx : Ctx) (inst : TexInst) (index : Value)
    (coords dref lod_lc : String) (offset : Value) (tex : String)
    (hsp : inst.sparse = none)
    (hb : inst.flags.has_bias = false)
    (hlc : inst.flags.has_lod_clamp = false)
    (hext : ctx.profile.support_gl_texture_shadow_lod = false)
    (htex : Texture ctx inst.flags index = Except.ok tex) :
    (inst.flags.type = .ColorCube →
      (EmitImageSampleDrefExplicitLod ctx inst index coords dref lod_lc offset).isOk = true ∧
      (EmitImageSampleDrefExplicitLod ctx inst index coords dref lod_lc offset).outCtx.stmts =
        ctx.stmts ++
        [VarName inst.id ++ "=textureGrad(" ++ tex ++ "," ++ "vec4" ++ "(" ++ coords ++ "," ++
          dref ++ ")," ++ "vec3" ++ "(0)," ++ "vec3" ++ "(0));"]) ∧
    (inst.flags.type = .ColorArrayCube →
      (EmitImageSampleDrefExplicitLod ctx inst index coords dref lod_lc offset).isOk = true ∧
      (EmitImageSampleDrefExplicitLod ctx inst index coords dref lod_lc offset).outCtx.stmts =
        ctx.stmts ++ [VarName inst.id ++ "=0.0f;"] ∧
      (inst.id, GlslVarType.F32) ∈
        (EmitImageSampleDrefExplicitLod ctx inst index coords dref lod_lc offset).outCtx.bindings)
    := by
  constructor
  · intro htype
    constructor <;>
      simp [EmitImageSampleDrefExplicitLod, PrepareSparse, hsp, hb, hlc, htex, htype,
        NeedsShadowLodExt, hext, Ctx.AddDef, Ctx.Define, Ctx.Add, EmitOut.isOk, EmitOut.outCtx]
  · intro htype
    refine ⟨?_, ?_, ?_⟩ <;>
      simp [EmitImageSampleDrefExplicitLod, PrepareSparse, hsp, hb, hlc, htex, htype,
        NeedsShadowLodExt, hext, Ctx.AddDef, Ctx.Define, Ctx.Add, EmitOut.isOk, EmitOut.outCtx]

/-- Witness for `dref_explicit_fallback`: concrete Cube and ArrayCube
depth-compare explicit-LOD samples in the extension-less context. -/
theorem dref_explicit_fallback_witness :
    ((EmitImageSampleDrefExplicitLod ctx0 ⟨50, ⟨.ColorCube, 0, false, false, 0, 0⟩, none⟩
      (.imm 0) "c" "d" "l" .empty).isOk = true ∧
      (EmitImageSampleDrefExplicitLod ctx0 ⟨50, ⟨.ColorCube, 0, false, false, 0, 0⟩, none⟩
        (.imm 0) "c" "d" "l" .empty).outCtx.stmts = ctx0.stmts ++
        [VarName 50 ++ "=textureGrad(" ++ ("tex" ++ toString 5) ++ "," ++ "vec4" ++ "(" ++
          "c" ++ "," ++ "d" ++ ")," ++ "vec3" ++ "(0)," ++ "vec3" ++ "(0));"]) ∧
    ((EmitImageSampleDrefExplicitLod ctx0
      ⟨51, ⟨.ColorArrayCube, 0, false, false, 0, 0⟩, none⟩
      (.imm 0) "c" "d" "l" .empty).isOk = true ∧
      (EmitImageSampleDrefExplicitLod ctx0
        ⟨51, ⟨.ColorArrayCube, 0, false, false, 0, 0⟩, none⟩
        (.imm 0) "c" "d" "l" .empty).outCtx.stmts =
        ctx0.stmts ++ [VarName 51 ++ "=0.0f;"] ∧
      (51, GlslVarType.F32) ∈ (EmitImageSampleDrefExplicitLod ctx0
        ⟨51, ⟨.ColorArrayCube, 0, false, false, 0, 0⟩, none⟩
        (.imm 0) "c" "d" "l" .empty).outCtx.bindings) :=
  ⟨(dref_explicit_fallback ctx0 ⟨50, ⟨.ColorCube, 0, false, false, 0, 0⟩, none⟩
      (.imm 0) "c" "d" "l" .empty ("tex" ++ toString 5) rfl rfl rfl rfl rfl).1 rfl,
   (dref_explicit_fallback ctx0 ⟨51, ⟨.ColorArrayCube, 0, false, false, 0, 0⟩, none⟩
      (.imm 0) "c" "d" "l" .empty ("tex" ++ toString 5) rfl rfl rfl rfl rfl).2 rfl⟩

/-- C7 counterexample: the claim ties the size width of a dimension query to
the coordinate-casting rule, under which `Cube` is 3-wide (both casting
helpers produce `ivec3` for `Cube`); the dimension query for `Cube` instead
packs a 2-wide size (`uvec2`), so the emitted statement differs from the
3-wide packing the claim dictates. -/
theorem query_dims_cube_cex :
    TexelFetchCastToInt "c" ⟨.ColorCube, 0, false, false, 0, 0⟩ = "ivec3(c)" ∧
    CastToIntVec "c" ⟨.ColorCube, 0, false, false, 0, 0⟩ = "ivec3(c)" ∧
    (EmitImageQueryDimensions ctx0 ⟨60, ⟨.ColorCube, 0, false, false, 0, 0⟩, none⟩
      (.imm 0) "l").isOk = true ∧
    (EmitImageQueryDimensions ctx0 ⟨60, ⟨.ColorCube, 0, false, false, 0, 0⟩, none⟩
      (.imm 0) "l").outCtx.stmts =
        ["v60=uvec4(uvec2(textureSize(tex5,int(l))),0u,uint(textureQueryLevels(tex5)));"] ∧
    ["v60=uvec4(uvec2(textureSize(tex5,int(l))),0u,uint(textureQueryLevels(tex5)));"] ≠
        ["v60=uvec4(uvec3(textureSize(tex5,int(l))),uint(textureQueryLevels(tex5)));"] := by
  exact ⟨rfl, by decide, by decide⟩

/-- C7 (amended): every dimension query packs into a canonical `uvec4` with
the size components first, `0u` padding between, and the mip-level count in
the final component; the size width is 1 for `1D`, 2 for `Array1D`/`2D`/`Cube`
and 3 for `Array2D`/`3D`/`ArrayCube` (the dimension-query grouping, not the
coordinate-casting grouping), and a Buffer dimension query raises the
unsupported-feature error with the sink untouched. -/
theorem query_dims_packing (ctx : Ctx) (inst : TexInst) (index : Value) (lod tex : String)
    (htex : Texture ctx inst.flags index = Except.ok tex) :
    (inst.flags.type = .Color1D →
      (EmitImageQueryDimensions ctx inst index lod).isOk = true ∧
      (EmitImageQueryDimensions ctx inst index lod).outCtx.stmts =
        ctx.stmts ++ [VarName inst.id ++ "=uvec4(uint(textureSize(" ++ tex ++
          ",int(" ++ lod ++ "))),0u,0u,uint(textureQueryLevels(" ++ tex ++ ")));"] ∧
      (inst.id, GlslVarType.U32x4) ∈ (EmitImageQueryDimensions ctx inst index lod).outCtx.bindings)
    ∧
    ((inst.flags.type = .ColorArray1D ∨ inst.flags.type = .Color2D ∨
      inst.flags.type = .ColorCube) →
      (EmitImageQueryDimensions ctx inst index lod).isOk = true ∧
      (EmitImageQueryDimensions ctx inst index lod).outCtx.stmts =
        ctx.stmts ++ [VarName inst.id ++ "=uvec4(uvec2(textureSize(" ++ tex ++
          ",int(" ++ lod ++ "))),0u,uint(textureQueryLevels(" ++ tex ++ ")));"] ∧
      (inst.id, GlslVarType.U32x4) ∈ (EmitImageQueryDimensions ctx inst index lod).outCtx.bindings)
    ∧
    ((inst.flags.type = .ColorArray2D ∨ inst.flags.type = .Color3D ∨
      inst.flags.type = .ColorArrayCube) →
      (EmitImageQueryDimensions ctx inst index lod).isOk = true ∧
      (EmitImageQueryDimensions ctx inst index lod).outCtx.stmts =
        ctx.stmts ++ [VarName inst.id ++ "=uvec4(uvec3(textureSize(" ++ tex ++
          ",int(" ++ lod ++ "))),uint(textureQueryLevels(" ++ tex ++ ")));"] ∧
      (inst.id, GlslVarType.U32x4) ∈ (EmitImageQueryDimensions ctx inst index lod).outCtx.bindings)
    ∧
    (inst.flags.type = .Buffer →
      EmitImageQueryDimensions ctx inst index lod =
        .err (.NotImplemented "EmitImageQueryDimensions Texture buffers") ctx) := by
  refine ⟨fun ht => ?_, fun ht => ?_, fun ht => ?_, fun ht => ?_⟩
  · refine ⟨?_, ?_, ?_⟩ <;>
      simp [EmitImageQueryDimensions, htex, ht, Ctx.AddDef, Ctx.Define, Ctx.Add,
        EmitOut.isOk, EmitOut.outCtx]
  · rcases ht with ht | ht | ht <;>
      (refine ⟨?_, ?_, ?_⟩ <;>
        simp [EmitImageQueryDimensions, htex, ht, Ctx.AddDef, Ctx.Define, Ctx.Add,
          EmitOut.isOk, EmitOut.outCtx])
  · rcases ht with ht | ht | ht <;>
      (refine ⟨?_, ?_, ?_⟩ <;>
        simp [EmitImageQueryDimensions, htex, ht, Ctx.AddDef, Ctx.Define, Ctx.Add,
          EmitOut.isOk, EmitOut.outCtx])
  · simp [EmitImageQueryDimensions, htex, ht]

/-- Witness for `query_dims_packing`: a 2D dimension query in the concrete
context packs a 2-wide size, and a Buffer query is rejected. -/
theorem query_dims_packing_witness :
    ((EmitImageQueryDimensions ctx0 ⟨61, ⟨.Color2D, 0, false, false, 0, 0⟩, none⟩
      (.imm 0) "l").isOk = true ∧
      (EmitImageQueryDimensions ctx0 ⟨61, ⟨.Color2D, 0, false, false, 0, 0⟩, none⟩
        (.imm 0) "l").outCtx.stmts =
        ctx0.stmts ++ [VarName 61 ++ "=uvec4(uvec2(textureSize(" ++
        ("tex" ++ toString 5) ++ ",int(" ++ "l" ++ "))),0u,uint(textureQueryLevels(" ++
        ("tex" ++ toString 5) ++ ")));"] ∧
      (61, GlslVarType.U32x4) ∈ (EmitImageQueryDimensions ctx0
        ⟨61, ⟨.Color2D, 0, false, false, 0, 0⟩, none⟩ (.imm 0) "l").outCtx.bindings) ∧
    EmitImageQueryDimensions ctx0 ⟨62, ⟨.Buffer, 0, false, false, 0, 0⟩, none⟩ (.imm 0) "l" =
      .err (.NotImplemented "EmitImageQueryDimensions Texture buffers") ctx0 :=
  ⟨(query_dims_packing ctx0 ⟨61, ⟨.Color2D, 0, false, false, 0, 0⟩, none⟩ (.imm 0) "l"
      ("tex" ++ toString 5) rfl).2.1 (Or.inr (Or.inl rfl)),
   (query_dims_packing ctx0 ⟨62, ⟨.Buffer, 0, false, false, 0, 0⟩, none⟩ (.imm 0) "l"
      ("tex" ++ toString 6) rfl).2.2.2 rfl⟩

/-- C4: whenever a sampling, fetch or gather instruction carries an attached
sparse-residency pseudo-instruction and is lowered successfully, the lowering
(a) invalidates the pseudo-instruction so it is never lowered independently,
(b) emits a statement of the sparse-capable template family
(`...=sparseTexelsResidentARB(sparse...)`), and (c) binds the
pseudo-instruction to the call's boolean result (its variable is the
statement's left-hand side, defined with the boolean type). -/
theorem sparse_fusion (ctx ctx2 : Ctx) (op : TexOp) (inst : TexInst) (a : TexArgs) (p : Nat)
    (hs : inst.sparse = some p)
    (hok : EmitTexOp ctx op inst a = .ok ctx2) :
    p ∈ ctx2.invalidated ∧ (p, GlslVarType.U1) ∈ ctx2.bindings ∧
    ∃ call, ctx2.stmts = ctx.stmts ++
      [VarName p ++ ("=sparseTexelsResidentARB(" ++ call)] := by
  cases op <;>
    (simp only [EmitTexOp, EmitImageSampleImplicitLod, EmitImageSampleExplicitLod,
      EmitImageSampleDrefImplicitLod, EmitImageSampleDrefExplicitLod, EmitImageGather,
      EmitImageGatherDref, EmitImageFetch, EmitImageGradient, PrepareSparse, hs] at hok
     repeat' split at hok
     all_goals first
       | exact EmitOut.noConfusion hok
       | (injection hok with h
          subst h
          refine ⟨by simp [Ctx.AddSparse, Ctx.AddDef, Ctx.Define, Ctx.Add],
                  by simp [Ctx.AddSparse, Ctx.AddDef, Ctx.Define, Ctx.Add], ?_⟩
          simp only [Ctx.AddSparse, Ctx.AddDef, Ctx.Define, Ctx.Add]
          exact ⟨_, rfl⟩))

/-- Witness for `sparse_fusion`: a sparse implicit-LOD sample in the concrete
context consumes pseudo-instruction 71, emits the sparse-family statement and
binds 71 to the boolean result. -/
theorem sparse_fusion_witness :
    ∃ ctx2, EmitTexOp ctx0 .SampleImplicitLod ⟨70, ⟨.Color2D, 0, false, false, 0, 0⟩, some 71⟩
      ⟨.imm 0, "c", "b", "l", "d", .empty, .empty, "", "l2", "", .empty, .empty⟩ = .ok ctx2 ∧
      (71 ∈ ctx2.invalidated ∧ (71, GlslVarType.U1) ∈ ctx2.bindings ∧
        ∃ call, ctx2.stmts = ctx0.stmts ++
          [VarName 71 ++ ("=sparseTexelsResidentARB(" ++ call)]) := by
  refine ⟨_, rfl, ?_⟩
  exact sparse_fusion ctx0 _ .SampleImplicitLod
    ⟨70, ⟨.Color2D, 0, false, false, 0, 0⟩, some 71⟩
    ⟨.imm 0, "c", "b", "l", "d", .empty, .empty, "", "l2", "", .empty, .empty⟩ 71 rfl rfl

end GlslImage
